import Mathlib

/-
Verification of the stress-test harness in `tools/stress_test.rs`
(repository `agentic-robotics`).

The harness spawns publisher workers, subscriber workers and a progress
monitor, aggregates two shared counters and a latency tracker, and reports
throughput and latency percentiles.  Below, each piece of the Rust source is
embedded shallowly:

* machine floats (`f64`) are modelled by `ℚ`; an IEEE division with a zero
  denominator produces a non-finite value (`inf`/`NaN`), which we model as
  `none : Option ℚ` (serde_json renders such values as `null`);
* latency samples are whole microseconds (`Nat`), as produced by
  `Duration::from_micros`;
* the asynchronous publish outcome of one tick is a `Bool`
  (`publisher.publish(..).await.is_ok()`).
-/

namespace StressTest

/-- Sorted view of the recorded samples (ascending). -/
def sortedSamples (xs : List Nat) : List Nat := List.insertionSort (· ≤ ·) xs

/-- Nearest-rank of the q-th permille among `n` samples: `ceil(q * n)` with
`q = permille / 1000`. -/
def nearestRank (permille n : Nat) : Nat := (permille * n + 999) / 1000

/-- Modelled from the spec: the latency tracker (`ros3_rt::latency::LatencyTracker`,
whose source is not part of this repository snapshot) reports, for percentile `q`
over `n` recorded samples, the value of the sample at rank `ceil(q * n)` in sorted
order (nearest-rank method, spec section 4.1; section 9 allows the exact sorted
implementation).  `percentileOf xs permille` is that value; for `permille = 1000`
it is the maximum of a non-empty sample list. -/
def percentileOf (xs : List Nat) (permille : Nat) : Nat :=
  (sortedSamples xs).getD (nearestRank permille xs.length - 1) 0

/-- Snapshot returned by `latency_tracker.stats()` (fields used by the harness). -/
structure LatencyStats where
  p50 : Nat
  p95 : Nat
  p99 : Nat
  p999 : Nat
  max : Nat
  sample_count : Nat
deriving DecidableEq

/-- Modelled from the spec: the tracker snapshot, built with nearest-rank
percentiles over the recorded samples. -/
def trackerStats (xs : List Nat) : LatencyStats :=
  ⟨percentileOf xs 500, percentileOf xs 950, percentileOf xs 990,
   percentileOf xs 999, percentileOf xs 1000, xs.length⟩

/-- `ros3_core::message::RobotState`, the synthetic message published each tick. -/
structure RobotState where
  position : ℚ × ℚ × ℚ
  velocity : ℚ × ℚ × ℚ
  timestamp : Int
deriving DecidableEq

/-- The message a publisher worker constructs at sequence number `sequence`
(stress_test.rs lines 153-157). -/
def mkMessage (sequence : Nat) : RobotState :=
  ⟨((sequence : ℚ), (sequence : ℚ), (sequence : ℚ)),
   (1 / 10, 2 / 10, 3 / 10), (sequence : Int)⟩

/-- Per-worker mutable state of one publisher task: its contribution to the
shared `messages_sent` counter, and its local `sequence` counter. -/
structure PubState where
  sent : Nat
  sequence : Nat
deriving DecidableEq

/-- One tick of the publisher loop (stress_test.rs lines 152-165): construct the
message from the current sequence, attempt the publish (outcome `ok`), and on
success increment `messages_sent` and advance `sequence`; on failure leave both
unchanged.  Returns the post-tick state and the message constructed. -/
def publisherTick (ok : Bool) (s : PubState) : PubState × RobotState :=
  (if ok then ⟨s.sent + 1, s.sequence + 1⟩ else s, mkMessage s.sequence)

/-- The publisher loop over one outcome per tick, returning the final state and
the list of messages constructed, in order. -/
def publisherRun : List Bool → PubState → PubState × List RobotState
  | [], s => (s, [])
  | ok :: rest, s =>
    ((publisherRun rest (publisherTick ok s).1).1,
     (publisherTick ok s).2 :: (publisherRun rest (publisherTick ok s).1).2)

/-- Sequence numbers (as carried in the `timestamp` field) of the messages one
worker constructs, starting from sequence `q`, given the per-tick outcomes. -/
def seqList : List Bool → Nat → List Int
  | [], _ => []
  | ok :: rest, q => (q : Int) :: seqList rest (if ok then q + 1 else q)

/-- Topic of publisher worker `i`: `format!("stress_topic_{}", i % 10)`
(stress_test.rs line 143). -/
def pubTopic (i : Nat) : String := "stress_topic_" ++ toString (i % 10)

/-- Topic of subscriber worker `i`: `format!("stress_topic_{}", i % 10)`
(stress_test.rs line 174). -/
def subTopic (i : Nat) : String := "stress_topic_" ++ toString (i % 10)

/-- Latency sample recorded by a subscriber tick (stress_test.rs line 187):
`(1.0 + rand::random::<f64>() * 49.0) as u64` microseconds, where `r` is the
random draw in `[0, 1)` and the `as u64` cast truncates toward zero. -/
def subscriberSample (r : ℚ) : Nat := Nat.floor (1 + r * 49)

/-- The shared mutable state of a run: the two atomic counters and the latency
tracker contents. -/
structure SharedState where
  messages_sent : Nat
  messages_received : Nat
  samples : List Nat
deriving DecidableEq

/-- One tick of the progress monitor (stress_test.rs lines 207-224): load both
counters, compute the interval rates `(current - last) / 5` per counter, and
remember the loaded values.  The monitor only performs atomic loads, so the
shared state is returned unchanged.  Result: (shared state after the tick,
new `(last_sent, last_received)`, printed rates). -/
def monitorTick (s : SharedState) (last : Nat × Nat) :
    SharedState × (Nat × Nat) × (ℚ × ℚ) :=
  (s, (s.messages_sent, s.messages_received),
   (((s.messages_sent - last.1 : Nat) : ℚ) / 5,
    ((s.messages_received - last.2 : Nat) : ℚ) / 5))

/-- The monitor loop body over the remaining tick indices, threading
`(last_sent, last_received)` and observing the shared state at each tick. -/
def monitorGo (states : Nat → SharedState) : List Nat → Nat × Nat → List (ℚ × ℚ)
  | [], _ => []
  | k :: ks, last =>
    (monitorTick (states k) last).2.2 ::
      monitorGo states ks (monitorTick (states k) last).2.1

/-- The progress monitor (stress_test.rs lines 201-226): `duration.as_secs() / 5`
ticks on a 5-second period, starting from `last_sent = last_received = 0`,
returning the interval-rate pairs it prints. -/
def monitorRun (states : Nat → SharedState) (durationSecs : Nat) : List (ℚ × ℚ) :=
  monitorGo states (List.range (durationSecs / 5)) (0, 0)

/-- IEEE `f64` division as used for the throughput: a zero denominator yields a
non-finite value (`inf` or `NaN`), modelled as `none`; otherwise the exact
quotient. -/
def f64Div (a b : ℚ) : Option ℚ := if b = 0 then none else some (a / b)

/-- Total of the shared `messages_sent` counter after all publisher workers
finish, given each worker's per-tick outcomes. -/
def totalSent (outcomes : List (List Bool)) : Nat :=
  (outcomes.map (fun o => (publisherRun o ⟨0, 0⟩).1.sent)).sum

/-- `StressTestResults` (stress_test.rs lines 68-79). -/
structure StressTestResults where
  total_messages : Nat
  duration_secs : ℚ
  throughput : Option ℚ
  latency_p50 : ℚ
  latency_p95 : ℚ
  latency_p99 : ℚ
  latency_p999 : ℚ
  latency_max : ℚ
  avg_cpu_percent : ℚ
  peak_memory_mb : ℚ
deriving DecidableEq

/-- Final aggregation of `run_stress_test` (stress_test.rs lines 239-260):
`outcomes` are the per-publisher per-tick publish outcomes, `samples` the
latency samples recorded by the subscribers, `elapsed` the wall-clock seconds
since run start, and `rc`, `rm` the two random draws in `[0, 1)` used for the
simulated resource figures.  Note `latency_p95` is `stats.p99 * 0.95` and the
throughput division has no zero-denominator guard. -/
def runStressTest (outcomes : List (List Bool)) (samples : List Nat)
    (elapsed rc rm : ℚ) : StressTestResults :=
  ⟨totalSent outcomes, elapsed,
   f64Div ((totalSent outcomes : ℚ)) elapsed,
   ((trackerStats samples).p50 : ℚ),
   ((trackerStats samples).p99 : ℚ) * (95 / 100),
   ((trackerStats samples).p99 : ℚ),
   ((trackerStats samples).p999 : ℚ),
   ((trackerStats samples).max : ℚ),
   253 / 10 + rc * 10, 1452 / 10 + rm * 50⟩

/-- JSON values, as far as the structured reporter needs them. -/
inductive Json where
  | null : Json
  | num : ℚ → Json
  | obj : List (String × Json) → Json

/-- serde_json rendering of an `f64`: non-finite values become `null`. -/
def jsonNum : Option ℚ → Json
  | none => Json.null
  | some q => Json.num q

/-- The single object emitted by `print_results` in structured (JSON) mode
(stress_test.rs lines 265-278). -/
def printResultsStructured (r : StressTestResults) : Json :=
  Json.obj
    [("total_messages", Json.num (r.total_messages : ℚ)),
     ("duration_secs", Json.num r.duration_secs),
     ("throughput_msg_per_sec", jsonNum r.throughput),
     ("latency_us", Json.obj
       [("p50", Json.num r.latency_p50),
        ("p95", Json.num r.latency_p95),
        ("p99", Json.num r.latency_p99),
        ("p999", Json.num r.latency_p999),
        ("max", Json.num r.latency_max)]),
     ("cpu_percent_avg", Json.num r.avg_cpu_percent),
     ("memory_mb_peak", Json.num r.peak_memory_mb)]

/-- Top-level field names of a JSON object. -/
def objKeys : Json → List String
  | Json.obj fs => fs.map Prod.fst
  | _ => []

/-- Look up a field of a JSON object by name. -/
def jsonField (j : Json) (k : String) : Option Json :=
  match j with
  | Json.obj fs => (fs.find? (fun p => p.1 == k)).map Prod.snd
  | _ => none

/- Supporting lemmas about the spec-modelled nearest-rank percentiles. -/

theorem length_sortedSamples (xs : List Nat) :
    (sortedSamples xs).length = xs.length :=
  List.length_insertionSort _ _

theorem sorted_sortedSamples (xs : List Nat) :
    (sortedSamples xs).Sorted (· ≤ ·) :=
  List.sorted_insertionSort _ _

theorem nearestRank_le (permille n : Nat) (h : permille ≤ 1000) :
    nearestRank permille n ≤ n := by
  unfold nearestRank
  have h1 : permille * n + 999 ≤ 1000 * n + 999 :=
    Nat.add_le_add_right (Nat.mul_le_mul_right n h) 999
  calc (permille * n + 999) / 1000 ≤ (1000 * n + 999) / 1000 :=
        Nat.div_le_div_right h1
    _ = n := by rw [Nat.mul_add_div (by norm_num)]; norm_num

theorem nearestRank_pos (permille n : Nat) (hp : 1 ≤ permille) (hn : 0 < n) :
    1 ≤ nearestRank permille n := by
  unfold nearestRank
  have h1 : 1 ≤ permille * n := Nat.one_le_iff_ne_zero.mpr (by positivity)
  have : 1 * 1000 ≤ permille * n + 999 := by omega
  exact (Nat.le_div_iff_mul_le (by norm_num)).mpr this

theorem nearestRank_mono (n : Nat) {a b : Nat} (hab : a ≤ b) :
    nearestRank a n ≤ nearestRank b n := by
  unfold nearestRank
  exact Nat.div_le_div_right (by have := Nat.mul_le_mul_right n hab; omega)

theorem percentileOf_mono (xs : List Nat) {a b : Nat} (hxs : xs ≠ [])
    (hab : a ≤ b) (hb : b ≤ 1000) :
    percentileOf xs a ≤ percentileOf xs b := by
  have hn : 0 < xs.length := List.length_pos.mpr hxs
  have hlen : (sortedSamples xs).length = xs.length := length_sortedSamples xs
  have hij : nearestRank a xs.length - 1 ≤ nearestRank b xs.length - 1 :=
    Nat.sub_le_sub_right (nearestRank_mono xs.length hab) 1
  have hbn : nearestRank b xs.length ≤ xs.length := nearestRank_le b xs.length hb
  have hj : nearestRank b xs.length - 1 < (sortedSamples xs).length := by
    rw [hlen]; omega
  have hi : nearestRank a xs.length - 1 < (sortedSamples xs).length :=
    lt_of_le_of_lt hij hj
  unfold percentileOf
  rw [List.getD_eq_getElem _ _ hi, List.getD_eq_getElem _ _ hj]
  have := (sorted_sortedSamples xs).rel_get_of_le
    (a := ⟨nearestRank a xs.length - 1, hi⟩)
    (b := ⟨nearestRank b xs.length - 1, hj⟩) hij
  simpa using this

/-- C1 counterexample: record a single 10-microsecond sample.  The tracker then
has sample_count = 1 > 0 and p50 = p99 = 10, but the reported p95 is
`10 * 0.95 = 9.5`, which is strictly below the reported p50 = 10, so the
claimed chain `p50 ≤ p95 ≤ p99 ≤ p99.9 ≤ max` fails at its first link. -/
theorem c1_counterexample :
    (trackerStats [10]).sample_count > 0 ∧
    ¬ ((runStressTest [] [10] 1 0 0).latency_p50 ≤
       (runStressTest [] [10] 1 0 0).latency_p95) := by
  have h50 : percentileOf [10] 500 = 10 := by decide
  have h99 : percentileOf [10] 990 = 10 := by decide
  constructor
  · decide
  · show ¬ ((percentileOf [10] 500 : ℚ) ≤ (percentileOf [10] 990 : ℚ) * (95 / 100))
    rw [h50, h99]
    norm_num

/-- C1 (amended): for every run whose final latency snapshot has
sample_count > 0, the reported statistics satisfy
`p95 ≤ p99 ≤ p99.9 ≤ max` and `p50 ≤ p99 ≤ p99.9 ≤ max`; the reported p95
(computed as `0.95 * p99`) may however fall below p50, so the full claimed
chain starting at p50 does not hold. -/
theorem c1_reported_order (outcomes : List (List Bool)) (samples : List Nat)
    (elapsed rc rm : ℚ) (hs : samples ≠ []) :
    (runStressTest outcomes samples elapsed rc rm).latency_p95 ≤
      (runStressTest outcomes samples elapsed rc rm).latency_p99 ∧
    (runStressTest outcomes samples elapsed rc rm).latency_p99 ≤
      (runStressTest outcomes samples elapsed rc rm).latency_p999 ∧
    (runStressTest outcomes samples elapsed rc rm).latency_p999 ≤
      (runStressTest outcomes samples elapsed rc rm).latency_max ∧
    (runStressTest outcomes samples elapsed rc rm).latency_p50 ≤
      (runStressTest outcomes samples elapsed rc rm).latency_p99 := by
  refine ⟨?_, ?_, ?_, ?_⟩
  · show ((trackerStats samples).p99 : ℚ) * (95 / 100) ≤ ((trackerStats samples).p99 : ℚ)
    exact mul_le_of_le_one_right (Nat.cast_nonneg _) (by norm_num)
  · show ((trackerStats samples).p99 : ℚ) ≤ ((trackerStats samples).p999 : ℚ)
    exact_mod_cast percentileOf_mono samples hs (by norm_num) (by norm_num)
  · show ((trackerStats samples).p999 : ℚ) ≤ ((trackerStats samples).max : ℚ)
    exact_mod_cast percentileOf_mono samples hs (by norm_num) (by norm_num)
  · show ((trackerStats samples).p50 : ℚ) ≤ ((trackerStats samples).p99 : ℚ)
    exact_mod_cast percentileOf_mono samples hs (by norm_num) (by norm_num)

/-- Witness for `c1_reported_order` at the concrete run with one 10-microsecond
sample. -/
theorem c1_reported_order_witness :
    (([10] : List Nat) ≠ []) ∧
    ((runStressTest [] [10] 1 0 0).latency_p95 ≤
       (runStressTest [] [10] 1 0 0).latency_p99 ∧
     (runStressTest [] [10] 1 0 0).latency_p99 ≤
       (runStressTest [] [10] 1 0 0).latency_p999 ∧
     (runStressTest [] [10] 1 0 0).latency_p999 ≤
       (runStressTest [] [10] 1 0 0).latency_max ∧
     (runStressTest [] [10] 1 0 0).latency_p50 ≤
       (runStressTest [] [10] 1 0 0).latency_p99) :=
  ⟨by decide, c1_reported_order [] [10] 1 0 0 (by decide)⟩

/-- C2 counterexample: at zero elapsed time the throughput field is the
unguarded float quotient, a non-finite value (modelled `none`), not zero. -/
theorem c2_counterexample :
    (runStressTest [] [] 0 0 0).duration_secs = 0 ∧
    (runStressTest [] [] 0 0 0).throughput ≠ some 0 := by
  constructor
  · rfl
  · show f64Div ((totalSent [] : ℚ)) 0 ≠ some 0
    simp [f64Div]

/-- C2 (amended): the reported throughput equals total_messages divided by the
elapsed seconds whenever the elapsed time is non-zero; the code has no
zero-denominator guard, so at zero elapsed time the division produces a
non-finite float (reported as null), not zero — though the run still does not
fail. -/
theorem c2_throughput (outcomes : List (List Bool)) (samples : List Nat)
    (elapsed rc rm : ℚ) (h : elapsed ≠ 0) :
    (runStressTest outcomes samples elapsed rc rm).throughput
      = some (((runStressTest outcomes samples elapsed rc rm).total_messages : ℚ)
          / elapsed) ∧
    (runStressTest outcomes samples 0 rc rm).throughput = none := by
  constructor
  · show f64Div ((totalSent outcomes : ℚ)) elapsed
        = some ((totalSent outcomes : ℚ) / elapsed)
    simp [f64Div, h]
  · show f64Div ((totalSent outcomes : ℚ)) 0 = none
    simp [f64Div]

/-- Witness for `c2_throughput` at elapsed time 1 second. -/
theorem c2_throughput_witness :
    (1 : ℚ) ≠ 0 ∧
    ((runStressTest [] [] 1 0 0).throughput
        = some (((runStressTest [] [] 1 0 0).total_messages : ℚ) / 1) ∧
     (runStressTest [] [] 0 0 0).throughput = none) :=
  ⟨by norm_num, c2_throughput [] [] 1 0 0 (by norm_num)⟩

/-- C3: the reported p95 is the tracker's p99 scaled by 0.95, and it differs
from the independent nearest-rank 95th percentile of the samples (witnessed by
the one-sample run, where the true p95 is 10 but the reported value is 9.5). -/
theorem c3_p95_is_scaled_p99 :
    (∀ (outcomes : List (List Bool)) (samples : List Nat) (elapsed rc rm : ℚ),
        (runStressTest outcomes samples elapsed rc rm).latency_p95
          = ((trackerStats samples).p99 : ℚ) * (95 / 100)) ∧
    (runStressTest [] [10] 1 0 0).latency_p95 ≠ ((percentileOf [10] 950 : Nat) : ℚ) := by
  constructor
  · intro _ _ _ _ _
    rfl
  · have h99 : percentileOf [10] 990 = 10 := by decide
    have h95 : percentileOf [10] 950 = 10 := by decide
    show ((percentileOf [10] 990 : Nat) : ℚ) * (95 / 100)
        ≠ ((percentileOf [10] 950 : Nat) : ℚ)
    rw [h99, h95]
    norm_num

/-- Per-worker counters after a whole publisher run: `messages_sent` and the
sequence both advance by exactly the number of successful ticks. -/
theorem publisherRun_counters (outcomes : List Bool) (s : PubState) :
    (publisherRun outcomes s).1.sent = s.sent + outcomes.count true ∧
    (publisherRun outcomes s).1.sequence = s.sequence + outcomes.count true := by
  induction outcomes generalizing s with
  | nil => simp [publisherRun]
  | cons ok rest ih =>
    cases ok <;> simp [publisherRun, publisherTick, List.count_cons, ih]
    all_goals omega

/-- C4: in every publisher tick, a successful publish increments the worker's
`messages_sent` contribution by one and advances its sequence by one; a failed
publish changes neither; each tick makes exactly one publish attempt and the
loop then proceeds with the remaining ticks; over a whole run both counters
advance by exactly the number of successful ticks. -/
theorem c4_publish_outcome_effect :
    (∀ s : PubState, (publisherTick true s).1.sent = s.sent + 1 ∧
        (publisherTick true s).1.sequence = s.sequence + 1) ∧
    (∀ s : PubState, (publisherTick false s).1 = s) ∧
    (∀ (ok : Bool) (rest : List Bool) (s : PubState),
        publisherRun (ok :: rest) s
          = ((publisherRun rest (publisherTick ok s).1).1,
             (publisherTick ok s).2 :: (publisherRun rest (publisherTick ok s).1).2)) ∧
    (∀ (outcomes : List Bool) (s : PubState),
        (publisherRun outcomes s).1.sent = s.sent + outcomes.count true ∧
        (publisherRun outcomes s).1.sequence = s.sequence + outcomes.count true) :=
  ⟨fun _ => ⟨rfl, rfl⟩, fun _ => rfl, fun _ _ _ => rfl, publisherRun_counters⟩

/-- The timestamps of the messages a worker constructs are exactly the sequence
trace of the loop. -/
theorem publisherRun_timestamps (outcomes : List Bool) (s : PubState) :
    ((publisherRun outcomes s).2).map RobotState.timestamp
      = seqList outcomes s.sequence := by
  induction outcomes generalizing s with
  | nil => rfl
  | cons ok rest ih =>
    cases ok <;> simp [publisherRun, publisherTick, seqList, mkMessage, ih]

/-- The first element of a sequence trace starting at `q` is `q`. -/
theorem seqList_head (outcomes : List Bool) (q : Nat) (b : Int)
    (hb : b ∈ (seqList outcomes q).head?) : b = (q : Int) := by
  cases outcomes with
  | nil => simp [seqList] at hb
  | cons ok rest =>
    simp [seqList] at hb
    exact hb.symm

/-- The sequence trace of a publisher worker is non-decreasing. -/
theorem seqList_chain_le (outcomes : List Bool) (q : Nat) :
    List.Chain' (· ≤ ·) (seqList outcomes q) := by
  induction outcomes generalizing q with
  | nil => simp [seqList]
  | cons ok rest ih =>
    simp only [seqList]
    rw [List.chain'_cons']
    refine ⟨?_, ih _⟩
    intro b hb
    have hbq := seqList_head rest _ b hb
    subst hbq
    cases ok <;> simp

/-- When every publish succeeds, the sequence trace is strictly increasing. -/
theorem seqList_chain_lt (outcomes : List Bool) (q : Nat)
    (h : ∀ ok ∈ outcomes, ok = true) :
    List.Chain' (· < ·) (seqList outcomes q) := by
  induction outcomes generalizing q with
  | nil => simp [seqList]
  | cons ok rest ih =>
    have hok : ok = true := h ok (List.mem_cons_self _ _)
    subst hok
    simp only [seqList, if_true]
    rw [List.chain'_cons']
    refine ⟨?_, ih (q + 1) (fun b hb => h b (List.mem_cons_of_mem _ hb))⟩
    intro b hb
    have hbq := seqList_head rest _ b hb
    subst hbq
    push_cast
    omega

/-- C5 counterexample: with outcomes [failure, success] the worker constructs
two consecutive messages both carrying sequence number 0, so the sequence
numbers of consecutive messages are not strictly increasing. -/
theorem c5_counterexample :
    ¬ List.Chain' (· < ·)
        (((publisherRun [false, true] ⟨0, 0⟩).2).map RobotState.timestamp) := by
  rw [publisherRun_timestamps]
  show ¬ List.Chain' (· < ·) (seqList [false, true] 0)
  have hs : seqList [false, true] 0 = [(0 : Int), 0] := rfl
  rw [hs, List.chain'_cons]
  simp

/-- C5 (amended): within one publisher worker the constructed sequence numbers
are non-decreasing, and they are strictly increasing whenever every publish of
the run succeeds; after a failed publish the next message repeats the same
sequence number. -/
theorem c5_sequence_monotone (outcomes : List Bool) (s : PubState) :
    List.Chain' (· ≤ ·) (((publisherRun outcomes s).2).map RobotState.timestamp) ∧
    ((∀ ok ∈ outcomes, ok = true) →
      List.Chain' (· < ·) (((publisherRun outcomes s).2).map RobotState.timestamp)) := by
  rw [publisherRun_timestamps]
  exact ⟨seqList_chain_le _ _, fun h => seqList_chain_lt _ _ h⟩

/-- Witness for `c5_sequence_monotone` on an all-success two-tick run. -/
theorem c5_sequence_monotone_witness :
    (∀ ok ∈ [true, true], ok = true) ∧
    List.Chain' (· < ·)
      (((publisherRun [true, true] ⟨0, 0⟩).2).map RobotState.timestamp) :=
  ⟨by decide, (c5_sequence_monotone [true, true] ⟨0, 0⟩).2 (by decide)⟩

/-- C6: the topic of a worker is a pure function of its index:
`"stress_topic" + "_" + (index mod 10)` (the fan-out is the hard-coded 10);
publishers and subscribers with the same index compute the same topic, and
index 11 maps to the same topic as index 1. -/
theorem c6_topic_assignment :
    (∀ i : Nat, pubTopic i = "stress_topic_" ++ toString (i % 10)) ∧
    ("stress_topic_" = "stress_topic" ++ "_") ∧
    (∀ i : Nat, subTopic i = pubTopic i) ∧
    pubTopic 11 = pubTopic 1 := by
  refine ⟨fun i => rfl, by decide, fun i => rfl, by decide⟩

/-- The monitor loop produces one rate line per tick index. -/
theorem monitorGo_length (states : Nat → SharedState) (ks : List Nat)
    (last : Nat × Nat) :
    (monitorGo states ks last).length = ks.length := by
  induction ks generalizing last with
  | nil => rfl
  | cons k ks ih => simp [monitorGo, ih]

/-- C7: the progress monitor performs exactly `duration / 5` ticks (5-second
period); each tick leaves the shared state (counters and tracker samples)
unchanged, loads both counters, and prints the per-counter delta since the
previous tick divided by the 5-second period. -/
theorem c7_monitor_observational (states : Nat → SharedState) (d : Nat)
    (s : SharedState) (last : Nat × Nat) :
    (monitorRun states d).length = d / 5 ∧
    (monitorTick s last).1 = s ∧
    (monitorTick s last).2.1 = (s.messages_sent, s.messages_received) ∧
    (monitorTick s last).2.2
      = (((s.messages_sent - last.1 : Nat) : ℚ) / 5,
         ((s.messages_received - last.2 : Nat) : ℚ) / 5) := by
  refine ⟨?_, rfl, rfl, rfl⟩
  rw [monitorRun, monitorGo_length, List.length_range]

/-- C8: the structured reporter emits a single object with exactly the fields
total_messages, duration_secs, throughput_msg_per_sec, latency_us,
cpu_percent_avg and memory_mb_peak, and the latency_us object has exactly the
sub-fields p50, p95, p99, p999 and max. -/
theorem c8_structured_fields (r : StressTestResults) :
    objKeys (printResultsStructured r)
      = ["total_messages", "duration_secs", "throughput_msg_per_sec",
         "latency_us", "cpu_percent_avg", "memory_mb_peak"] ∧
    ∃ sub, jsonField (printResultsStructured r) ("latency_us") = some sub ∧
      objKeys sub = ["p50", "p95", "p99", "p999", "max"] := by
  exact ⟨rfl, ⟨_, rfl, rfl⟩⟩

/-- C9: a run with no publishers and no subscribers completes (the aggregation
is total) with total_messages = 0 and, for any positive elapsed wall-clock
time, reported throughput 0. -/
theorem c9_zero_worker_run (elapsed rc rm : ℚ) (h : 0 < elapsed) :
    (runStressTest [] [] elapsed rc rm).total_messages = 0 ∧
    (runStressTest [] [] elapsed rc rm).throughput = some 0 := by
  constructor
  · rfl
  · show f64Div ((totalSent [] : ℚ)) elapsed = some 0
    have h0 : (totalSent [] : ℚ) = 0 := by norm_num [totalSent]
    simp [f64Div, h.ne', h0]

/-- Witness for `c9_zero_worker_run` at elapsed time 1 second. -/
theorem c9_zero_worker_run_witness :
    (0 : ℚ) < 1 ∧
    ((runStressTest [] [] 1 0 0).total_messages = 0 ∧
     (runStressTest [] [] 1 0 0).throughput = some 0) :=
  ⟨by norm_num, c9_zero_worker_run 1 0 0 (by norm_num)⟩

/-- C10: every latency sample a subscriber records is between 1 and 49
microseconds inclusive, for any random draw in [0, 1). -/
theorem c10_sample_range (r : ℚ) (h0 : 0 ≤ r) (h1 : r < 1) :
    1 ≤ subscriberSample r ∧ subscriberSample r ≤ 49 := by
  unfold subscriberSample
  have h49 : (0 : ℚ) ≤ r * 49 := by nlinarith
  constructor
  · refine Nat.le_floor ?_
    push_cast
    linarith
  · have hlt : (1 + r * 49 : ℚ) < 50 := by nlinarith
    have hfl : Nat.floor (1 + r * 49 : ℚ) < 50 := by
      rw [Nat.floor_lt (by linarith)]
      exact_mod_cast hlt
    omega

/-- Witness for `c10_sample_range` at the draw 1/2 (sample value 25). -/
theorem c10_sample_range_witness :
    (0 : ℚ) ≤ 1 / 2 ∧ (1 / 2 : ℚ) < 1 ∧
    (1 ≤ subscriberSample (1 / 2) ∧ subscriberSample (1 / 2) ≤ 49) :=
  ⟨by norm_num, by norm_num, c10_sample_range (1 / 2) (by norm_num) (by norm_num)⟩

end StressTest
